import Mathlib

/-!
# Verification of the NFL tendency dashboard's analytics engine

A shallow embedding of `src/data_processing.py` (and the inlined defensive
filter of `src/app.py`).  Pandas `DataFrame`s become `List PlayRecord`,
nullable columns become `Option` fields, floats become `ℚ`, and each Python
function becomes a Lean function with the same name and structure.
-/

namespace NFLDash

/-- Characters Python's `str.strip` (with no argument) removes; used when
modelling Python's `int(...)` which strips surrounding whitespace. -/
def pyIsSpace (c : Char) : Bool :=
  c = ' ' || c = '\t' || c = '\n' || c = '\r' || c = '\x0b' || c = '\x0c'

/-- ASCII decimal digit test (Python `int` accepts exactly these, modulo
signs/whitespace/underscores; underscore-separated forms are outside this
model). -/
def pyIsDigit (c : Char) : Bool :=
  48 ≤ c.toNat && c.toNat ≤ 57

/-- Strip leading and trailing whitespace from a character list
(Python `str.strip`). -/
def stripChars (cs : List Char) : List Char :=
  ((cs.dropWhile pyIsSpace).reverse.dropWhile pyIsSpace).reverse

/-- Value of a digit string, most significant digit first. -/
def digitsVal (cs : List Char) : Int :=
  cs.foldl (fun acc c => 10 * acc + ((c.toNat : Int) - 48)) 0

/-- Python's `int(s)` on a string: strips whitespace, allows one optional
leading sign, then requires a nonempty run of decimal digits; `none` models
the `ValueError` raised otherwise. -/
def pyInt? (cs : List Char) : Option Int :=
  match stripChars cs with
  | [] => none
  | c :: rest =>
      if c = '-' then
        if rest ≠ [] ∧ rest.all pyIsDigit then some (-(digitsVal rest)) else none
      else if c = '+' then
        if rest ≠ [] ∧ rest.all pyIsDigit then some (digitsVal rest) else none
      else
        if (c :: rest).all pyIsDigit then some (digitsVal (c :: rest)) else none

/-- `s.split(':')[0]`: the prefix of the string before the first `':'`
(the whole string when there is no `':'`). -/
def firstField (cs : List Char) : List Char :=
  cs.takeWhile (fun c => c ≠ ':')

/-- `parse_clock_to_minutes` (data_processing.py:36-54): `pd.isna` → 0,
else `int(str(clock).split(':')[0])`, and 0 on any parse failure. -/
def parse_clock_to_minutes (clock : Option String) : Int :=
  match clock with
  | none => 0
  | some s =>
      match pyInt? (firstField s.data) with
      | some m => m
      | none => 0

/-- `normalize_formation_group` (data_processing.py:57-83). -/
def normalize_formation_group (formation : Option String) : Option String :=
  match formation with
  | none => none
  | some s =>
      if s.contains 'x' then
        match s.splitOn "x" with
        | [a, b] =>
            match pyInt? a.data, pyInt? b.data with
            | some n1, some n2 => some (s!"{max n1 n2}x{min n1 n2}")
            | _, _ => some s
        | _ => some s
      else some s

/-- `parse_pass_rushers` (data_processing.py:443-463): count before the first
`';'`, stripped and parsed as an integer; 0 on null or parse failure. -/
def parse_pass_rushers (rushers : Option String) : Int :=
  match rushers with
  | none => 0
  | some s =>
      match pyInt? (s.data.takeWhile (fun c => c ≠ ';')) with
      | some n => n
      | none => 0

/-- `is_man_coverage` (data_processing.py:466-480). -/
def is_man_coverage (coverage : Option String) : Bool :=
  match coverage with
  | none => false
  | some s => (s.trim.toUpper) ∈ ["COVER 0", "COVER 1", "COVER 1 DOUBLE", "COVER 2 MAN"]

/-- `normalize_coverage` (data_processing.py:482-501). -/
def normalize_coverage (coverage : Option String) : Option String :=
  match coverage with
  | none => none
  | some s =>
      let c := s.trim.toUpper
      if c ∈ ["COVER 3 CLOUD", "COVER 3 DBL CLOUD", "COVER 3 SEAM"] then
        some "COVER 3"
      else some c

/-- One play-by-play row.  Base columns come from the CSV (nullable columns
are `Option`); the remaining fields are the derived columns that
`add_calculated_columns` / `add_defensive_columns` write, defaulted so that a
raw (underived) record can be written concisely. -/
structure PlayRecord where
  pff_RUNPASS : String
  pff_OFFTEAM : String := ""
  pff_DEFTEAM : String := ""
  pff_WEEK : String := ""
  pff_QUARTER : Int := 1
  pff_DOWN : Int := 1
  pff_DISTANCE : Int := 10
  pff_YARDS_TO_GOAL_LINE : Int := 50
  pff_CLOCK : Option String := none
  pff_SHIFTMOTION : Option String := none
  pff_PLAYACTION : Option Int := none
  pff_DROPBACKTYPE : Option String := none
  pff_RUNCONCEPTPRIMARY : Option String := none
  pff_OFFFORMATIONGROUP : Option String := none
  pff_OFFPERSONNELBASIC : Option String := none
  pff_DEF_PACKAGE : Option String := none
  pff_BLITZDOG : Option Int := none
  pff_PASSRUSHPLAYERS : Option String := none
  pff_PASS_COVERAGE_BASIC : Option String := none
  pff_MOFOCSHOWN : Option String := none
  pff_MOFOCPLAYED : Option String := none
  -- derived columns (written by the deriver, defaulted on raw records)
  minutes_remaining : Int := 0
  pff_OFFFORMATIONGROUP_NORM : Option String := none
  is_run : Int := 0
  has_motion : Int := 0
  is_play_action : Int := 0
  is_standard_dropback : Int := 0
  pff_PASS_COVERAGE_NORMALIZED : Option String := none
  num_pass_rushers : Int := 0
  is_blitz : Int := 0
  is_man_coverage : Int := 0
  is_mofo : Int := 0
  is_disguise : Int := 0
  has_mofo_data : Int := 0
  deriving DecidableEq, Repr

/-- `add_defensive_columns` (data_processing.py:503-546), per record: every
derived defensive column is recomputed from the base columns. -/
def add_defensive_columns (r : PlayRecord) : PlayRecord :=
  { r with
    pff_PASS_COVERAGE_NORMALIZED := normalize_coverage r.pff_PASS_COVERAGE_BASIC
    num_pass_rushers := parse_pass_rushers r.pff_PASSRUSHPLAYERS
    is_blitz := if r.pff_BLITZDOG = some 1 then 1 else 0
    is_man_coverage := if is_man_coverage r.pff_PASS_COVERAGE_BASIC then 1 else 0
    is_mofo := if r.pff_MOFOCPLAYED = some "O" then 1 else 0
    is_disguise :=
      if r.pff_MOFOCSHOWN.isSome ∧ r.pff_MOFOCPLAYED.isSome ∧
         r.pff_MOFOCSHOWN ≠ r.pff_MOFOCPLAYED then 1 else 0
    has_mofo_data := if r.pff_MOFOCSHOWN.isSome ∧ r.pff_MOFOCPLAYED.isSome then 1 else 0 }

/-- `add_calculated_columns` (data_processing.py:86-117), per record.  Note
the `pff_PLAYACTION == 0` comparison: in pandas a null compares unequal to 0,
so it is modelled as `= some 0`, while `fillna(0)` is `getD 0`. -/
def add_calculated_columns (r : PlayRecord) : PlayRecord :=
  add_defensive_columns
    { r with
      minutes_remaining := parse_clock_to_minutes r.pff_CLOCK
      pff_OFFFORMATIONGROUP_NORM := normalize_formation_group r.pff_OFFFORMATIONGROUP
      is_run := if r.pff_RUNPASS = "R" then 1 else 0
      has_motion := if r.pff_SHIFTMOTION.isSome then 1 else 0
      is_play_action := r.pff_PLAYACTION.getD 0
      is_standard_dropback :=
        if ((match r.pff_DROPBACKTYPE with
             | some d => decide (d ∈ ["SD", "SR", "SL"])
             | none => false) && decide (r.pff_PLAYACTION = some 0)) = true
        then 1 else 0 }

/-- The whole-table form of `add_calculated_columns`: pandas applies the
column formulas row-wise, so the table version is a `map`. -/
def add_calculated_columns_df (df : List PlayRecord) : List PlayRecord :=
  df.map add_calculated_columns

/-- The filter specification dictionary.  `[]` models an absent or empty
list criterion (both are falsy in the Python guards), `none` an absent
range/team criterion; `some ""` models the falsy empty team string. -/
structure Filters where
  team : Option String := none
  weeks : List String := []
  quarters : List Int := []
  time_range : Option (Int × Int) := none
  downs : List Int := []
  yards_to_go_range : Option (Int × Int) := none
  yardline_range : Option (Int × Int) := none
  deriving DecidableEq, Repr

/-- `filter_data`'s team block (data_processing.py:134-135): guarded by the
truthiness of `filters.get('team')`, and matching on `pff_OFFTEAM`. -/
def teamStep (f : Filters) (d : List PlayRecord) : List PlayRecord :=
  match f.team with
  | some t => if t = "" then d else d.filter (fun r => r.pff_OFFTEAM = t)
  | none => d

/-- Week block (data_processing.py:138-139): `pff_WEEK` is already a string
in the model, so `astype(str)` is the identity. -/
def weekStep (f : Filters) (d : List PlayRecord) : List PlayRecord :=
  if f.weeks = [] then d else d.filter (fun r => r.pff_WEEK ∈ f.weeks)

/-- Quarter block (data_processing.py:142-143). -/
def quarterStep (f : Filters) (d : List PlayRecord) : List PlayRecord :=
  if f.quarters = [] then d else d.filter (fun r => r.pff_QUARTER ∈ f.quarters)

/-- Time-remaining block (data_processing.py:146-151). -/
def timeStep (f : Filters) (d : List PlayRecord) : List PlayRecord :=
  match f.time_range with
  | some (lo, hi) =>
      d.filter (fun r => lo ≤ r.minutes_remaining ∧ r.minutes_remaining ≤ hi)
  | none => d

/-- Down block (data_processing.py:154-155). -/
def downStep (f : Filters) (d : List PlayRecord) : List PlayRecord :=
  if f.downs = [] then d else d.filter (fun r => r.pff_DOWN ∈ f.downs)

/-- Yards-to-go block (data_processing.py:158-163). -/
def ytgStep (f : Filters) (d : List PlayRecord) : List PlayRecord :=
  match f.yards_to_go_range with
  | some (lo, hi) => d.filter (fun r => lo ≤ r.pff_DISTANCE ∧ r.pff_DISTANCE ≤ hi)
  | none => d

/-- Yardline block (data_processing.py:166-171). -/
def yardlineStep (f : Filters) (d : List PlayRecord) : List PlayRecord :=
  match f.yardline_range with
  | some (lo, hi) =>
      d.filter (fun r =>
        lo ≤ r.pff_YARDS_TO_GOAL_LINE ∧ r.pff_YARDS_TO_GOAL_LINE ≤ hi)
  | none => d

/-- The six non-team filter blocks, in source order.  This same block of
code appears verbatim in `filter_data` (data_processing.py:137-173), in
`calculate_all_teams_tendencies` (299-333), in
`calculate_all_teams_defensive_tendencies` (691-719) and in the app's
defensive path (app.py:504-533); it is shared here once. -/
def applyNonTeamFilters (f : Filters) (d : List PlayRecord) : List PlayRecord :=
  yardlineStep f (ytgStep f (downStep f (timeStep f (quarterStep f (weekStep f d)))))

/-- `filter_data` (data_processing.py:120-173): team block then the six
situational blocks. -/
def filter_data (df : List PlayRecord) (f : Filters) : List PlayRecord :=
  applyNonTeamFilters f (teamStep f df)

/-- The defensive filter path inlined in the app (app.py:501-533): the team
criterion matched against `pff_DEFTEAM`, then the same six situational
blocks. -/
def filter_defense (df : List PlayRecord) (team : String) (f : Filters) :
    List PlayRecord :=
  applyNonTeamFilters f (df.filter (fun r => r.pff_DEFTEAM = team))

/-- The team criterion as a predicate: `true` when absent or empty. -/
def critTeam (f : Filters) (r : PlayRecord) : Bool :=
  match f.team with
  | some t => if t = "" then true else r.pff_OFFTEAM = t
  | none => true

/-- The weeks criterion as a predicate: `true` when the list is empty. -/
def critWeeks (f : Filters) (r : PlayRecord) : Bool :=
  if f.weeks = [] then true else r.pff_WEEK ∈ f.weeks

/-- The quarters criterion as a predicate. -/
def critQuarters (f : Filters) (r : PlayRecord) : Bool :=
  if f.quarters = [] then true else r.pff_QUARTER ∈ f.quarters

/-- The time-remaining criterion as a predicate (inclusive range). -/
def critTime (f : Filters) (r : PlayRecord) : Bool :=
  match f.time_range with
  | some (lo, hi) => lo ≤ r.minutes_remaining ∧ r.minutes_remaining ≤ hi
  | none => true

/-- The downs criterion as a predicate. -/
def critDowns (f : Filters) (r : PlayRecord) : Bool :=
  if f.downs = [] then true else r.pff_DOWN ∈ f.downs

/-- The distance criterion as a predicate (inclusive range). -/
def critYtg (f : Filters) (r : PlayRecord) : Bool :=
  match f.yards_to_go_range with
  | some (lo, hi) => lo ≤ r.pff_DISTANCE ∧ r.pff_DISTANCE ≤ hi
  | none => true

/-- The yardline criterion as a predicate (inclusive range). -/
def critYardline (f : Filters) (r : PlayRecord) : Bool :=
  match f.yardline_range with
  | some (lo, hi) => lo ≤ r.pff_YARDS_TO_GOAL_LINE ∧ r.pff_YARDS_TO_GOAL_LINE ≤ hi
  | none => true

/-- Conjunction of the six non-team criteria (absent criteria are `true`),
with a choice of team column: the "orthogonal team axis" of §4.3. -/
def withTeamAxis (teamOf : PlayRecord → String) (t : String) (f : Filters)
    (r : PlayRecord) : Bool :=
  decide (teamOf r = t) && (critWeeks f r && (critQuarters f r
    && (critTime f r && (critDowns f r && (critYtg f r && critYardline f r)))))

/-- Conjunction of all seven criteria of `filter_data`. -/
def matchesFilters (f : Filters) (r : PlayRecord) : Bool :=
  critTeam f r && (critWeeks f r && (critQuarters f r
    && (critTime f r && (critDowns f r && (critYtg f r && critYardline f r)))))

/-- Distinct values of a list in order of first appearance
(pandas `Series.unique`, and the value set of `groupby`). -/
def firstUniques : List String → List String
  | [] => []
  | x :: xs => x :: firstUniques (xs.filter (fun y => y ≠ x))
termination_by l => l.length
decreasing_by
  simpa using Nat.lt_succ_of_le (List.length_filter_le _ xs)

instance : DecidableRel (fun a b : String × Nat => a.2 ≥ b.2) :=
  fun a b => Nat.decLe b.2 a.2

instance : DecidableRel (fun a b : ℚ => a ≥ b) :=
  fun a b => inferInstanceAs (Decidable (b ≤ a))

instance : DecidableRel (fun a b : String => a ≤ b) :=
  fun a b => inferInstanceAs (Decidable (a ≤ b))

/-- pandas `Series.value_counts()`: distinct non-null values with their
multiplicities, sorted by count descending (stable on first appearance). -/
def valueCounts (xs : List String) : List (String × Nat) :=
  List.insertionSort (fun a b => a.2 ≥ b.2)
    ((firstUniques xs).map (fun v => (v, xs.count v)))

/-- Floor of a rational (numerator floor-divided by the positive
denominator); kept as an explicit computable definition. -/
def ratFloor (q : ℚ) : Int :=
  q.num.fdiv q.den

/-- Round to the nearest integer, halves to even — the rounding Python's
`format(x, '.1f')` applies (idealized over exact rationals rather than
binary doubles). -/
def roundHalfEven (x : ℚ) : Int :=
  let f := ratFloor x
  let r := x - f
  if r < 1 / 2 then f
  else if 1 / 2 < r then f + 1
  else if f % 2 = 0 then f else f + 1

/-- Python's `f"{v:.1f}"`: one decimal place. -/
def fmt1 (q : ℚ) : String :=
  let t := roundHalfEven (q * 10)
  let a := t.natAbs
  (if t < 0 then "-" else "") ++ s!"{a / 10}.{a % 10}"

/-- `(count / denominator) * 100` as done throughout the source. -/
def ratioPct (num den : ℚ) : ℚ :=
  num / den * 100

/-- Sum of an integer column over a table (`df[col].sum()`). -/
def sumCol (df : List PlayRecord) (col : PlayRecord → Int) : Int :=
  (df.map col).sum

/-- The top-3 loop shared by the aggregators (data_processing.py:209-212,
260-263, 589-592, 653-656): up to three most frequent values, each rendered
as `"NAME (p.p%)"` with the percentage against `den`. -/
def topValueStrings (xs : List String) (den : Nat) : List String :=
  ((valueCounts xs).take 3).map
    (fun p => s!"{p.1} ({fmt1 (ratioPct (p.2 : ℚ) (den : ℚ))}%)")

/-- Result dictionary of `calculate_overall_tendencies`. -/
structure OverallTendencies where
  total_plays : Nat
  run_pct : ℚ
  pa_pct : ℚ
  db_pct : ℚ
  motion_pct : ℚ
  top_run_concepts : List String
  deriving DecidableEq, Repr

/-- `calculate_overall_tendencies` (data_processing.py:176-221). -/
def calculate_overall_tendencies (df : List PlayRecord) : OverallTendencies :=
  let total := df.length
  if total = 0 then
    { total_plays := 0, run_pct := 0, pa_pct := 0, db_pct := 0,
      motion_pct := 0, top_run_concepts := [] }
  else
    let run_plays := df.filter (fun r => r.is_run = 1)
    { total_plays := total
      run_pct := ratioPct (sumCol df (·.is_run) : ℚ) (total : ℚ)
      pa_pct := ratioPct (sumCol df (·.is_play_action) : ℚ) (total : ℚ)
      db_pct := ratioPct (sumCol df (·.is_standard_dropback) : ℚ) (total : ℚ)
      motion_pct := ratioPct (sumCol df (·.has_motion) : ℚ) (total : ℚ)
      top_run_concepts :=
        if run_plays.length > 0 then
          topValueStrings (run_plays.filterMap (·.pff_RUNCONCEPTPRIMARY))
            run_plays.length
        else [] }

/-- One row of the `calculate_category_tendencies` result table. -/
structure CategoryRow where
  Category : String
  Plays : Nat
  Usage_Pct : ℚ
  Run_Pct : ℚ
  PA_Pct : ℚ
  DB_Pct : ℚ
  Motion_Pct : ℚ
  Top_Run_Concepts : String
  deriving DecidableEq, Repr

instance : DecidableRel (fun a b : CategoryRow => a.Usage_Pct ≥ b.Usage_Pct) :=
  fun a b => inferInstanceAs (Decidable (b.Usage_Pct ≤ a.Usage_Pct))

/-- Keys of `df.groupby(col)`: distinct non-null values, sorted ascending
(pandas sorts group keys and drops nulls).  A pandas column name becomes a
projection `PlayRecord → Option String`. -/
def groupKeys (df : List PlayRecord) (cat : PlayRecord → Option String) :
    List String :=
  List.insertionSort (fun a b => a ≤ b) (firstUniques (df.filterMap cat))

/-- The loop body of `calculate_category_tendencies` (data_processing.py:
245-274): the summary row for the group of records whose category value is
`k`, with percentages denominated by the group size (`Usage_Pct` by the whole
input's size). -/
def categoryRow (df : List PlayRecord) (cat : PlayRecord → Option String)
    (k : String) : CategoryRow :=
  let g := df.filter (fun r => cat r = some k)
  let n := g.length
  let run_plays := g.filter (fun r => r.is_run = 1)
  { Category := k
    Plays := n
    Usage_Pct := ratioPct (n : ℚ) (df.length : ℚ)
    Run_Pct := if n > 0 then ratioPct (sumCol g (·.is_run) : ℚ) (n : ℚ) else 0
    PA_Pct :=
      if n > 0 then ratioPct (sumCol g (·.is_play_action) : ℚ) (n : ℚ) else 0
    DB_Pct :=
      if n > 0 then
        ratioPct (sumCol g (·.is_standard_dropback) : ℚ) (n : ℚ)
      else 0
    Motion_Pct :=
      if n > 0 then ratioPct (sumCol g (·.has_motion) : ℚ) (n : ℚ) else 0
    Top_Run_Concepts :=
      String.intercalate "\n"
        (if run_plays.length > 0 then
          topValueStrings (run_plays.filterMap (·.pff_RUNCONCEPTPRIMARY))
            run_plays.length
        else []) }

/-- `calculate_category_tendencies` (data_processing.py:224-281). -/
def calculate_category_tendencies (df : List PlayRecord)
    (cat : PlayRecord → Option String) : List CategoryRow :=
  if df.length = 0 then []
  else
    List.insertionSort (fun a b => a.Usage_Pct ≥ b.Usage_Pct)
      ((groupKeys df cat).map (categoryRow df cat))

/-- One row of the `calculate_all_teams_tendencies` result table. -/
structure TeamOverall where
  Team : String
  Total_Plays : Nat
  Run_Pct : ℚ
  PA_Pct : ℚ
  DB_Pct : ℚ
  Motion_Pct : ℚ
  deriving DecidableEq, Repr

/-- `calculate_all_teams_tendencies` (data_processing.py:284-358): the six
situational filters (never the team filter), then one overall-metric row per
offense team appearing in the filtered table; the `category_column`
parameter appears in the signature only. -/
def calculate_all_teams_tendencies (df : List PlayRecord) (f : Filters)
    (category_column : Option String) : List TeamOverall :=
  let d := applyNonTeamFilters f df
  (firstUniques (d.map (·.pff_OFFTEAM))).filterMap (fun team =>
    let tdf := d.filter (fun r => r.pff_OFFTEAM = team)
    if tdf.length = 0 then none
    else
      some { Team := team
             Total_Plays := tdf.length
             Run_Pct := ratioPct (sumCol tdf (·.is_run) : ℚ) (tdf.length : ℚ)
             PA_Pct := ratioPct (sumCol tdf (·.is_play_action) : ℚ) (tdf.length : ℚ)
             DB_Pct :=
               ratioPct (sumCol tdf (·.is_standard_dropback) : ℚ) (tdf.length : ℚ)
             Motion_Pct :=
               ratioPct (sumCol tdf (·.has_motion) : ℚ) (tdf.length : ℚ) })

/-- `df[df['pff_RUNPASS'] == 'P']`, the pass-play scope used by every
defensive metric. -/
def passPlays (df : List PlayRecord) : List PlayRecord :=
  df.filter (fun r => r.pff_RUNPASS = "P")

/-- `pass_plays[pass_plays['has_mofo_data'] == 1]`: the disguise
denominator scope. -/
def mofoPassPlays (df : List PlayRecord) : List PlayRecord :=
  (passPlays df).filter (fun r => r.has_mofo_data = 1)

/-- Result dictionary of `calculate_defensive_overall_tendencies`. -/
structure DefOverallTendencies where
  total_plays : Nat
  blitz_pct : ℚ
  man_pct : ℚ
  mofo_pct : ℚ
  disguise_pct : ℚ
  top_coverages : List String
  deriving DecidableEq, Repr

/-- `calculate_defensive_overall_tendencies` (data_processing.py:549-601). -/
def calculate_defensive_overall_tendencies (df : List PlayRecord) :
    DefOverallTendencies :=
  let total := df.length
  let pp := passPlays df
  if pp.length = 0 then
    { total_plays := total, blitz_pct := 0, man_pct := 0, mofo_pct := 0,
      disguise_pct := 0, top_coverages := [] }
  else
    let mofo := pp.filter (fun r => r.has_mofo_data = 1)
    { total_plays := total
      blitz_pct := ratioPct (sumCol pp (·.is_blitz) : ℚ) (pp.length : ℚ)
      man_pct := ratioPct (sumCol pp (·.is_man_coverage) : ℚ) (pp.length : ℚ)
      mofo_pct := ratioPct (sumCol pp (·.is_mofo) : ℚ) (pp.length : ℚ)
      disguise_pct :=
        if mofo.length > 0 then
          ratioPct (sumCol mofo (·.is_disguise) : ℚ) (mofo.length : ℚ)
        else 0
      top_coverages :=
        if pp.length > 0 then
          topValueStrings (pp.filterMap (·.pff_PASS_COVERAGE_NORMALIZED)) pp.length
        else [] }

/-- One row of the `calculate_defensive_category_tendencies` result table. -/
structure DefCategoryRow where
  Category : String
  Plays : Nat
  Usage_Pct : ℚ
  Blitz_Pct : ℚ
  Man_Pct : ℚ
  MOFO_Pct : ℚ
  Disguise_Pct : ℚ
  Top_Coverages : String
  deriving DecidableEq, Repr

instance : DecidableRel (fun a b : DefCategoryRow => a.Usage_Pct ≥ b.Usage_Pct) :=
  fun a b => inferInstanceAs (Decidable (b.Usage_Pct ≤ a.Usage_Pct))

/-- The loop body of `calculate_defensive_category_tendencies`
(data_processing.py:625-667): the defensive summary row for the group of
records whose category value is `k`. -/
def defCategoryRow (df : List PlayRecord) (cat : PlayRecord → Option String)
    (k : String) : DefCategoryRow :=
  let g := df.filter (fun r => cat r = some k)
  let n := g.length
  let pp := passPlays g
  let mofo := pp.filter (fun r => r.has_mofo_data = 1)
  { Category := k
    Plays := n
    Usage_Pct := ratioPct (n : ℚ) (df.length : ℚ)
    Blitz_Pct :=
      if pp.length > 0 then
        ratioPct (sumCol pp (·.is_blitz) : ℚ) (pp.length : ℚ)
      else 0
    Man_Pct :=
      if pp.length > 0 then
        ratioPct (sumCol pp (·.is_man_coverage) : ℚ) (pp.length : ℚ)
      else 0
    MOFO_Pct :=
      if pp.length > 0 then
        ratioPct (sumCol pp (·.is_mofo) : ℚ) (pp.length : ℚ)
      else 0
    Disguise_Pct :=
      if pp.length > 0 then
        if mofo.length > 0 then
          ratioPct (sumCol mofo (·.is_disguise) : ℚ) (mofo.length : ℚ)
        else 0
      else 0
    Top_Coverages :=
      String.intercalate "\n"
        (if pp.length > 0 then
          topValueStrings (pp.filterMap (·.pff_PASS_COVERAGE_NORMALIZED))
            pp.length
        else []) }

/-- `calculate_defensive_category_tendencies` (data_processing.py:604-674). -/
def calculate_defensive_category_tendencies (df : List PlayRecord)
    (cat : PlayRecord → Option String) : List DefCategoryRow :=
  if df.length = 0 then []
  else
    List.insertionSort (fun a b => a.Usage_Pct ≥ b.Usage_Pct)
      ((groupKeys df cat).map (defCategoryRow df cat))

/-- The descending sort of all teams' values for one metric
(`all_teams_df[metric].sort_values(ascending=False)`,
data_processing.py:386). -/
def sortValsDesc (l : List ℚ) : List ℚ :=
  List.insertionSort (fun a b => a ≥ b) l

/-- The per-value body of the ranking loop in `add_rankings`
(data_processing.py:382-401, reproduced as `get_rank` in app.py:234-262):
position of the first exactly-equal element of the descending-sorted values,
plus one; `"t-"` prefix when the value occurs more than once; `"-"` when it
does not occur. -/
def rank_string (values : List ℚ) (value : ℚ) : String :=
  match (sortValsDesc values).findIdx? (fun v => v = value) with
  | some i =>
      if 1 < (sortValsDesc values).count value then "t-" ++ toString (i + 1)
      else toString (i + 1)
  | none => "-"

/-- A two-record defensive table separating the disguise denominators: one
MOFO-valid disguise pass play and one pass play without MOFO data. -/
def disguiseSepDf : List PlayRecord :=
  [{ pff_RUNPASS := "P", has_mofo_data := 1, is_disguise := 1 },
   { pff_RUNPASS := "P", has_mofo_data := 0, is_disguise := 0 }]

/-! ## Supporting lemmas -/

theorem add_calculated_columns_idem (r : PlayRecord) :
    add_calculated_columns (add_calculated_columns r) = add_calculated_columns r :=
  rfl

theorem digit_ne_colon {c : Char} (h : pyIsDigit c = true) : c ≠ ':' := by
  intro he; subst he; exact absurd h (by decide)

theorem digit_not_space {c : Char} (h : pyIsDigit c = true) :
    pyIsSpace c = false := by
  cases hs : pyIsSpace c with
  | false => rfl
  | true =>
      simp only [pyIsSpace, Bool.or_eq_true, decide_eq_true_eq] at hs
      rcases hs with ((((h1 | h1) | h1) | h1) | h1) | h1 <;>
        (subst h1; exact absurd h (by decide))

theorem takeWhile_all_append {α : Type} (p : α → Bool) (l₁ : List α) (x : α)
    (l₂ : List α) (h : ∀ a ∈ l₁, p a = true) (hx : p x = false) :
    (l₁ ++ x :: l₂).takeWhile p = l₁ := by
  induction l₁ with
  | nil => simp [List.takeWhile, hx]
  | cons a t ih =>
      have ha := h a (by simp)
      rw [List.cons_append, List.takeWhile_cons, ha]
      simp only [List.append_eq]
      rw [ih (fun b hb => h b (by simp [hb]))]
      simp

theorem dropWhile_eq_self_of {α : Type} (p : α → Bool) (l : List α)
    (h : ∀ a ∈ l, p a = false) : l.dropWhile p = l := by
  cases l with
  | nil => rfl
  | cons a t => simp [List.dropWhile, h a (by simp)]

theorem stripChars_eq_self {cs : List Char}
    (h : ∀ c ∈ cs, pyIsSpace c = false) : stripChars cs = cs := by
  unfold stripChars
  rw [dropWhile_eq_self_of _ _ h,
      dropWhile_eq_self_of _ _ (fun c hc => h c (List.mem_reverse.mp hc)),
      List.reverse_reverse]

theorem digitsVal_foldl_nonneg :
    ∀ (cs : List Char) (acc : Int), 0 ≤ acc → (∀ c ∈ cs, pyIsDigit c = true) →
      0 ≤ cs.foldl (fun a c => 10 * a + ((c.toNat : Int) - 48)) acc := by
  intro cs
  induction cs with
  | nil => intro acc h _; simpa using h
  | cons c t ih =>
      intro acc hacc hd
      have hc := hd c (by simp)
      simp only [pyIsDigit, Bool.and_eq_true, decide_eq_true_eq] at hc
      simp only [List.foldl_cons]
      exact ih _ (by omega) (fun b hb => hd b (by simp [hb]))

theorem digitsVal_nonneg {cs : List Char}
    (h : ∀ c ∈ cs, pyIsDigit c = true) : 0 ≤ digitsVal cs :=
  digitsVal_foldl_nonneg cs 0 le_rfl h

theorem pyInt_of_digits {cs : List Char} (hne : cs ≠ [])
    (h : ∀ c ∈ cs, pyIsDigit c = true) : pyInt? cs = some (digitsVal cs) := by
  have hstrip : stripChars cs = cs :=
    stripChars_eq_self (fun c hc => digit_not_space (h c hc))
  unfold pyInt?
  rw [hstrip]
  clear hstrip
  cases cs with
  | nil => exact absurd rfl hne
  | cons c t =>
      have hc := h c (by simp)
      have hminus : c ≠ '-' := by intro he; subst he; exact absurd hc (by decide)
      have hplus : c ≠ '+' := by intro he; subst he; exact absurd hc (by decide)
      have hall : (c :: t).all pyIsDigit = true := List.all_eq_true.mpr h
      simp [hminus, hplus, hall]

theorem filter_filter_and {α : Type} (p q : α → Bool) (l : List α) :
    (l.filter p).filter q = l.filter (fun a => p a && q a) := by
  induction l with
  | nil => rfl
  | cons a t ih =>
      by_cases hp : p a <;> by_cases hq : q a <;>
        simp [List.filter_cons, hp, hq, ih]

theorem teamStep_eq (f : Filters) (d : List PlayRecord) :
    teamStep f d = d.filter (critTeam f) := by
  unfold teamStep critTeam
  cases f.team with
  | none => simp
  | some t => by_cases h : t = "" <;> simp [h]

theorem weekStep_eq (f : Filters) (d : List PlayRecord) :
    weekStep f d = d.filter (critWeeks f) := by
  unfold weekStep critWeeks
  by_cases h : f.weeks = [] <;> simp [h]

theorem quarterStep_eq (f : Filters) (d : List PlayRecord) :
    quarterStep f d = d.filter (critQuarters f) := by
  unfold quarterStep critQuarters
  by_cases h : f.quarters = [] <;> simp [h]

theorem timeStep_eq (f : Filters) (d : List PlayRecord) :
    timeStep f d = d.filter (critTime f) := by
  unfold timeStep critTime
  cases h : f.time_range with
  | none => simp
  | some lohi => cases lohi; simp

theorem downStep_eq (f : Filters) (d : List PlayRecord) :
    downStep f d = d.filter (critDowns f) := by
  unfold downStep critDowns
  by_cases h : f.downs = [] <;> simp [h]

theorem ytgStep_eq (f : Filters) (d : List PlayRecord) :
    ytgStep f d = d.filter (critYtg f) := by
  unfold ytgStep critYtg
  cases h : f.yards_to_go_range with
  | none => simp
  | some lohi => cases lohi; simp

theorem yardlineStep_eq (f : Filters) (d : List PlayRecord) :
    yardlineStep f d = d.filter (critYardline f) := by
  unfold yardlineStep critYardline
  cases h : f.yardline_range with
  | none => simp
  | some lohi => cases lohi; simp

theorem filter_data_eq_filter (df : List PlayRecord) (f : Filters) :
    filter_data df f = df.filter (matchesFilters f) := by
  unfold filter_data applyNonTeamFilters
  rw [teamStep_eq, weekStep_eq, quarterStep_eq, timeStep_eq, downStep_eq,
      ytgStep_eq, yardlineStep_eq, filter_filter_and, filter_filter_and,
      filter_filter_and, filter_filter_and, filter_filter_and, filter_filter_and]
  rfl

/-! ## Claim theorems -/

/-- C7: `calculate_overall_tendencies` on the empty record set returns
`total_plays = 0`, all percentage fields `0`, and `top_run_concepts = []`,
as a plain success value. -/
theorem overall_tendencies_empty :
    calculate_overall_tendencies [] =
      { total_plays := 0, run_pct := 0, pa_pct := 0, db_pct := 0,
        motion_pct := 0, top_run_concepts := [] } :=
  rfl

/-- C8: deriving the calculated columns is idempotent — applying
`add_calculated_columns` (which ends by applying `add_defensive_columns`)
twice to a record set gives the same table as applying it once, because every
derived column is recomputed from base columns only. -/
theorem derive_idempotent (df : List PlayRecord) :
    add_calculated_columns_df (add_calculated_columns_df df) =
      add_calculated_columns_df df := by
  unfold add_calculated_columns_df
  rw [List.map_map]
  exact List.map_congr_left (fun r _ => add_calculated_columns_idem r)

/-- C10: `calculate_all_teams_tendencies` never consults its
`category_column` argument — any two choices give identical results. -/
theorem all_teams_ignores_category_column (df : List PlayRecord) (f : Filters)
    (c1 c2 : Option String) :
    calculate_all_teams_tendencies df f c1 = calculate_all_teams_tendencies df f c2 :=
  rfl

/-- C3 (counterexample): the claimed behaviour is false on the code.  With
dropback type `"SD"` and a null play-action flag, the claim (null treated as
0, i.e. as "no play action") demands `is_standard_dropback = 1`, but pandas'
`pff_PLAYACTION == 0` comparison is false on null, so the code yields `0`.
Moreover the derivation never consults the run/pass column: an `R` record
carrying dropback `"SD"` and play-action `0` gets `is_standard_dropback = 1`,
violating "never 1 for a record whose run/pass indicator is R". -/
theorem standard_dropback_claim_false :
    (¬ ∀ r : PlayRecord,
        ((add_calculated_columns r).is_standard_dropback = 1 ↔
          ((match r.pff_DROPBACKTYPE with
            | some d => decide (d ∈ ["SD", "SR", "SL"])
            | none => false) = true) ∧ r.pff_PLAYACTION.getD 0 = 0)
        ∧ (r.pff_RUNPASS = "R" →
            (add_calculated_columns r).is_standard_dropback ≠ 1))
    ∧ (add_calculated_columns
        { pff_RUNPASS := "R", pff_DROPBACKTYPE := some "SD",
          pff_PLAYACTION := some 0 }).is_standard_dropback = 1 := by
  constructor
  · intro h
    have h1 := (h { pff_RUNPASS := "P", pff_DROPBACKTYPE := some "SD",
                    pff_PLAYACTION := none }).1
    exact absurd (h1.mpr (by decide)) (by decide)
  · decide

/-- C3 (amended): `is_standard_dropback` is 1 exactly when the dropback type
is one of SD, SR, SL and the play-action flag is present and equal to 0 (a
null play-action flag yields 0); in particular it is 0 whenever the dropback
type is null — which is why, on data where running plays carry no dropback
type, it is never 1 for them. -/
theorem standard_dropback_formula (r : PlayRecord) :
    ((add_calculated_columns r).is_standard_dropback = 1 ↔
      ((r.pff_DROPBACKTYPE = some "SD" ∨ r.pff_DROPBACKTYPE = some "SR" ∨
        r.pff_DROPBACKTYPE = some "SL") ∧ r.pff_PLAYACTION = some 0))
    ∧ (r.pff_DROPBACKTYPE = none →
        (add_calculated_columns r).is_standard_dropback = 0) := by
  unfold add_calculated_columns add_defensive_columns
  cases h : r.pff_DROPBACKTYPE with
  | none => simp
  | some d =>
      by_cases hpa : r.pff_PLAYACTION = some 0 <;>
        by_cases hd : d ∈ ["SD", "SR", "SL"] <;>
          simp_all [List.mem_cons]

/-- C3 (witness for the amended theorem): for a concrete pass record with
dropback `"SD"` and play-action `0`, the formula's right-hand side holds and
the indicator is indeed 1. -/
theorem standard_dropback_formula_witness :
    (add_calculated_columns
      { pff_RUNPASS := "P", pff_DROPBACKTYPE := some "SD",
        pff_PLAYACTION := some 0 }).is_standard_dropback = 1 :=
  (standard_dropback_formula
    { pff_RUNPASS := "P", pff_DROPBACKTYPE := some "SD",
      pff_PLAYACTION := some 0 }).1.mpr (by decide)

/-- C4 (counterexample): `minutes_remaining` is not always non-negative.
Python's `int` parses a signed minute component, so the clock string
`"-5:00"` (neither null nor unparsable) derives `minutes_remaining = -5`. -/
theorem minutes_remaining_negative :
    (add_calculated_columns
      { pff_RUNPASS := "P", pff_CLOCK := some "-5:00" }).minutes_remaining = -5
    ∧ ¬ (0 ≤ (add_calculated_columns
          { pff_RUNPASS := "P", pff_CLOCK := some "-5:00" }).minutes_remaining) := by
  decide

/-- C4 (amended): `minutes_remaining` is the deterministic pure function
`parse_clock_to_minutes` of the clock string; it is 0 on a null or
unparsable clock; and on every clock string `"MM:SS"` whose minute component
is a (nonempty) digit string it equals the integer value of `MM` — and is
then non-negative.  (Non-negativity fails only for signed minute components,
per the counterexample.) -/
theorem parse_clock_spec :
    (∀ r : PlayRecord,
      (add_calculated_columns r).minutes_remaining =
        parse_clock_to_minutes r.pff_CLOCK)
    ∧ parse_clock_to_minutes none = 0
    ∧ (∀ s : String, pyInt? (firstField s.data) = none →
        parse_clock_to_minutes (some s) = 0)
    ∧ (∀ mm ss : List Char, mm ≠ [] → (∀ c ∈ mm, pyIsDigit c = true) →
        parse_clock_to_minutes (some (String.mk (mm ++ ':' :: ss))) = digitsVal mm
        ∧ 0 ≤ digitsVal mm) := by
  refine ⟨fun r => rfl, rfl, fun s h => ?_, fun mm ss hne hd => ?_⟩
  · simp [parse_clock_to_minutes, h]
  · have hfield : firstField (mm ++ ':' :: ss) = mm := by
      unfold firstField
      exact takeWhile_all_append _ mm ':' ss
        (fun c hc => by simpa using digit_ne_colon (hd c hc))
        (by decide)
    constructor
    · show (match pyInt? (firstField (mm ++ ':' :: ss)) with
            | some m => m
            | none => 0) = digitsVal mm
      rw [hfield, pyInt_of_digits hne hd]
    · exact digitsVal_nonneg hd

/-- C4 (witness for the amended theorem): at the concrete clock `"14:53"`
the parse yields 14 (and a concrete unparsable clock yields 0). -/
theorem parse_clock_spec_witness :
    parse_clock_to_minutes (some (String.mk (['1', '4'] ++ ':' :: ['5', '3']))) =
      digitsVal ['1', '4']
    ∧ parse_clock_to_minutes (some "foo") = 0 := by
  refine ⟨(parse_clock_spec.2.2.2 ['1', '4'] ['5', '3'] (by decide) (by decide)).1, ?_⟩
  exact parse_clock_spec.2.2.1 "foo" (by decide)

/-- C5: `filter_data` returns exactly the records satisfying the conjunction
of all present criteria (absent/empty criteria impose no constraint — each
`crit…` predicate is `true` then), it is a single order-preserving
`List.filter` (hence a sublist of the input, which is itself never mutated),
and on the concrete scenario — weeks criterion `["1","2"]` over a table with
weeks 1, 2, 3 — it returns exactly the week-1 and week-2 rows in their
original order. -/
theorem filter_data_spec :
    (∀ (df : List PlayRecord) (f : Filters),
      filter_data df f = df.filter (matchesFilters f)
      ∧ (filter_data df f).Sublist df)
    ∧ filter_data
        [{ pff_RUNPASS := "P", pff_WEEK := "1" },
         { pff_RUNPASS := "P", pff_WEEK := "2" },
         { pff_RUNPASS := "P", pff_WEEK := "3" }]
        { weeks := ["1", "2"] } =
      [{ pff_RUNPASS := "P", pff_WEEK := "1" },
       { pff_RUNPASS := "P", pff_WEEK := "2" }] := by
  refine ⟨fun df f => ⟨filter_data_eq_filter df f, ?_⟩, by decide⟩
  rw [filter_data_eq_filter]
  exact List.filter_sublist df

/-- C6 (counterexample): the filter engine's team criterion never matches the
defense-team column.  A record with offense team `"B"` and defense team
`"A"`, probed with team criterion `"A"` and no other criteria, is dropped by
`filter_data` — while the separate defensive filter path inlined in the app,
which applies the same non-team criteria against `pff_DEFTEAM`, keeps it. -/
theorem team_criterion_offense_only :
    filter_data
        [{ pff_RUNPASS := "P", pff_OFFTEAM := "B", pff_DEFTEAM := "A" }]
        { team := some "A" } = []
    ∧ filter_defense
        [{ pff_RUNPASS := "P", pff_OFFTEAM := "B", pff_DEFTEAM := "A" }]
        "A" { team := some "A" } =
      [{ pff_RUNPASS := "P", pff_OFFTEAM := "B", pff_DEFTEAM := "A" }] := by
  decide

/-- C6 (amended): `filter_data`'s team criterion matches only the
offense-team column; defense-team filtering is provided by a separate filter
path (inlined in the app) that applies the identical non-team criteria with
the team matched on `pff_DEFTEAM` — the same criteria reused with a
different team column. -/
theorem team_axis_filtering (df : List PlayRecord) (f : Filters) (t : String)
    (hteam : f.team = some t) (hne : t ≠ "") :
    filter_data df f = df.filter (withTeamAxis (·.pff_OFFTEAM) t f)
    ∧ filter_defense df t f = df.filter (withTeamAxis (·.pff_DEFTEAM) t f) := by
  constructor
  · unfold filter_data applyNonTeamFilters
    have hteamstep : teamStep f df = df.filter (fun r => r.pff_OFFTEAM = t) := by
      unfold teamStep
      rw [hteam]
      simp [hne]
    rw [hteamstep, weekStep_eq, quarterStep_eq, timeStep_eq, downStep_eq,
        ytgStep_eq, yardlineStep_eq, filter_filter_and, filter_filter_and,
        filter_filter_and, filter_filter_and, filter_filter_and, filter_filter_and]
    rfl
  · unfold filter_defense applyNonTeamFilters
    rw [weekStep_eq, quarterStep_eq, timeStep_eq, downStep_eq,
        ytgStep_eq, yardlineStep_eq, filter_filter_and, filter_filter_and,
        filter_filter_and, filter_filter_and, filter_filter_and, filter_filter_and]
    rfl

/-- C6 (witness for the amended theorem): concrete instantiation with team
criterion `"A"` present and non-empty. -/
theorem team_axis_filtering_witness :
    filter_data [{ pff_RUNPASS := "P", pff_OFFTEAM := "A", pff_DEFTEAM := "B" }]
        { team := some "A" } =
      List.filter
        (withTeamAxis (·.pff_OFFTEAM) "A" { team := some "A" })
        [{ pff_RUNPASS := "P", pff_OFFTEAM := "A", pff_DEFTEAM := "B" }] :=
  (team_axis_filtering
    [{ pff_RUNPASS := "P", pff_OFFTEAM := "A", pff_DEFTEAM := "B" }]
    { team := some "A" } "A" rfl (by decide)).1

instance : IsTotal ℚ (fun a b : ℚ => a ≥ b) :=
  ⟨fun a b => le_total b a⟩

instance : IsTrans ℚ (fun a b : ℚ => a ≥ b) :=
  ⟨fun _ _ _ h1 h2 => le_trans h2 h1⟩

/-- C1: the rank operation really sorts the table's values descending
(the sort is a permutation of the values, ordered by `≥`), and returns: the
sentinel `"-"` when no table value equals the probe exactly; otherwise one
plus the position of the first exactly-equal element of the descending-sorted
array, prefixed with `"t-"` exactly when more than one table value equals the
probe.  On the concrete table `[50, 50, 30]`: `rank 50 = "t-1"` and
`rank 30 = "3"`. -/
theorem rank_string_spec :
    (∀ (values : List ℚ) (v : ℚ),
      (sortValsDesc values).Perm values
      ∧ (sortValsDesc values).Sorted (fun a b : ℚ => a ≥ b)
      ∧ rank_string values v =
          (if v ∈ values then
            (if 1 < values.count v then
              "t-" ++ toString ((sortValsDesc values).findIdx (fun x => x = v) + 1)
            else toString ((sortValsDesc values).findIdx (fun x => x = v) + 1))
          else "-"))
    ∧ rank_string [50, 50, 30] 50 = "t-" ++ toString 1
    ∧ rank_string [50, 50, 30] 30 = toString 3 := by
  refine ⟨fun values v => ?_, by decide, by decide⟩
  have hperm : (sortValsDesc values).Perm values :=
    List.perm_insertionSort _ values
  refine ⟨hperm, List.sorted_insertionSort _ values, ?_⟩
  unfold rank_string
  cases h : (sortValsDesc values).findIdx? (fun x => x = v) with
  | none =>
      have hnot : v ∉ values := by
        intro hv
        have := (List.findIdx?_eq_none_iff.mp h) v (hperm.mem_iff.mpr hv)
        simp at this
      rw [if_neg hnot]
  | some i =>
      have hmem : v ∈ values := by
        obtain ⟨hlt, hp, -⟩ := List.findIdx?_eq_some_iff_getElem.mp h
        have : (sortValsDesc values)[i] = v := by simpa using hp
        exact hperm.mem_iff.mp (this ▸ List.getElem_mem hlt)
      have hidx : (sortValsDesc values).findIdx (fun x => x = v) = i :=
        (List.findIdx?_eq_some_iff_findIdx_eq.mp h).2
      have hcount : (sortValsDesc values).count v = values.count v :=
        hperm.count_eq v
      rw [if_pos hmem, hidx, hcount]

theorem mem_firstUniques : ∀ (xs : List String) (k : String),
    k ∈ firstUniques xs → k ∈ xs := by
  intro xs
  induction xs using firstUniques.induct with
  | case1 =>
      intro k h
      simp only [firstUniques] at h
      exact absurd h (List.not_mem_nil k)
  | case2 x xs ih =>
      intro k h
      simp only [firstUniques] at h
      rcases List.mem_cons.mp h with h1 | h1
      · exact h1 ▸ List.mem_cons_self x xs
      · exact List.mem_cons_of_mem x (List.mem_of_mem_filter (ih k h1))

theorem sum_countP_firstUniques : ∀ xs : List String,
    ((firstUniques xs).map (fun k => xs.countP (fun y => y = k))).sum = xs.length := by
  intro xs
  induction xs using firstUniques.induct with
  | case1 => simp [firstUniques]
  | case2 x xs ih =>
      simp only [firstUniques, List.map_cons, List.sum_cons]
      have hmap :
          (firstUniques (xs.filter (fun y => y ≠ x))).map
              (fun k => (x :: xs).countP (fun y => y = k)) =
            (firstUniques (xs.filter (fun y => y ≠ x))).map
              (fun k => (xs.filter (fun y => y ≠ x)).countP (fun y => y = k)) := by
        apply List.map_congr_left
        intro k hk
        have hkx : k ≠ x := by
          have hmem := mem_firstUniques _ k hk
          simpa using (List.mem_filter.mp hmem).2
        rw [List.countP_cons, List.countP_filter]
        have hif : (decide (x = k) : Bool) = false :=
          decide_eq_false (Ne.symm hkx)
        rw [hif]
        simp only [Bool.false_eq_true, if_false, add_zero]
        apply List.countP_congr
        intro a _
        simp only [Bool.and_eq_true, decide_eq_true_eq]
        exact ⟨fun ha => ⟨ha, ha ▸ hkx⟩, fun ha => ha.1⟩
      rw [hmap, ih]
      have hpart : xs.length =
          xs.countP (fun y => y = x) + (xs.filter (fun y => y ≠ x)).length := by
        rw [← List.countP_eq_length_filter,
            List.length_eq_countP_add_countP (fun y => decide (y = x))]
        congr 1
        apply List.countP_congr
        intro a _
        simp
      rw [List.countP_cons]
      have hxx : (if (decide (x = x)) = true then 1 else 0) = 1 := by simp
      rw [hxx, List.length_cons]
      omega

theorem countP_filterMap_cat :
    ∀ (df : List PlayRecord) (cat : PlayRecord → Option String) (k : String),
      (df.filterMap cat).countP (fun y => y = k) =
        df.countP (fun r => cat r = some k) := by
  intro df cat k
  induction df with
  | nil => rfl
  | cons r t ih =>
      cases h : cat r with
      | none => simp [List.filterMap_cons, h, List.countP_cons, ih]
      | some v =>
          by_cases hv : v = k <;>
            simp [List.filterMap_cons, h, List.countP_cons, ih, hv]

theorem length_filterMap_all_some :
    ∀ (df : List PlayRecord) (cat : PlayRecord → Option String),
      (∀ r ∈ df, cat r ≠ none) → (df.filterMap cat).length = df.length := by
  intro df cat
  induction df with
  | nil => intro _; rfl
  | cons r t ih =>
      intro h
      cases hr : cat r with
      | none => exact absurd hr (h r (by simp))
      | some v =>
          simp only [List.filterMap_cons, hr, List.length_cons]
          rw [ih (fun b hb => h b (by simp [hb]))]

theorem sum_map_ratioPct {α : Type} (l : List α) (g : α → ℕ) (T : ℚ) :
    (l.map (fun a => ratioPct ((g a : ℕ) : ℚ) T)).sum =
      (((l.map g).sum : ℕ) : ℚ) / T * 100 := by
  induction l with
  | nil => simp [ratioPct]
  | cons a t ih =>
      rw [List.map_cons, List.sum_cons, ih, List.map_cons, List.sum_cons]
      push_cast
      simp only [ratioPct]
      ring

/-- C9: when the input is non-empty and no record has a null category value
(the groups partition the input exactly), the `Usage_Pct` values over all
rows of one `calculate_category_tendencies` call sum to exactly 100 (the
model computes in exact rational arithmetic, so the floating-point tolerance
is not needed). -/
theorem usage_pct_sums_to_100 (df : List PlayRecord)
    (cat : PlayRecord → Option String) (hne : df ≠ [])
    (hcat : ∀ r ∈ df, cat r ≠ none) :
    ((calculate_category_tendencies df cat).map (fun row => row.Usage_Pct)).sum
      = 100 := by
  have h0 : ¬ df.length = 0 := fun h => hne (List.length_eq_zero.mp h)
  unfold calculate_category_tendencies
  rw [if_neg h0]
  have hps :=
    (List.perm_insertionSort (fun a b : CategoryRow => a.Usage_Pct ≥ b.Usage_Pct)
      ((groupKeys df cat).map (categoryRow df cat))).map (fun row => row.Usage_Pct)
  rw [hps.sum_eq]
  rw [List.map_map]
  have hrow : ∀ k,
      ((fun row => row.Usage_Pct) ∘ categoryRow df cat) k =
        ratioPct (((df.filterMap cat).countP (fun y => y = k) : ℕ) : ℚ)
          (df.length : ℚ) := by
    intro k
    show ratioPct ((df.filter (fun r => cat r = some k)).length : ℚ) (df.length : ℚ) = _
    rw [← List.countP_eq_length_filter, countP_filterMap_cat]
  rw [List.map_congr_left (fun k _ => hrow k)]
  unfold groupKeys
  have hks :=
    (List.perm_insertionSort (fun a b : String => a ≤ b)
      (firstUniques (df.filterMap cat))).map
      (fun k => ratioPct (((df.filterMap cat).countP (fun y => y = k) : ℕ) : ℚ)
        (df.length : ℚ))
  rw [hks.sum_eq]
  rw [sum_map_ratioPct (firstUniques (df.filterMap cat))
        (fun k => (df.filterMap cat).countP (fun y => y = k)) (df.length : ℚ),
      sum_countP_firstUniques, length_filterMap_all_some df cat hcat]
  rw [div_self (by exact_mod_cast h0)]
  norm_num

/-- C9 (witness): a concrete two-record set with personnel categories "11"
and "12" — non-empty, no null category — whose usage percentages sum
to 100. -/
theorem usage_pct_sums_to_100_witness :
    ((calculate_category_tendencies
        [{ pff_RUNPASS := "R", pff_OFFPERSONNELBASIC := some "11" },
         { pff_RUNPASS := "P", pff_OFFPERSONNELBASIC := some "12" }]
        (·.pff_OFFPERSONNELBASIC)).map (fun row => row.Usage_Pct)).sum = 100 :=
  usage_pct_sums_to_100
    [{ pff_RUNPASS := "R", pff_OFFPERSONNELBASIC := some "11" },
     { pff_RUNPASS := "P", pff_OFFPERSONNELBASIC := some "12" }]
    (·.pff_OFFPERSONNELBASIC) (by decide) (by decide)

theorem sumCol_eq_countP (l : List PlayRecord) (col : PlayRecord → Int)
    (h : ∀ r ∈ l, col r = 0 ∨ col r = 1) :
    sumCol l col = ((l.countP (fun r => col r = 1) : ℕ) : Int) := by
  induction l with
  | nil => rfl
  | cons r t ih =>
      have hr := h r (by simp)
      have ht := ih (fun b hb => h b (by simp [hb]))
      simp only [sumCol, List.map_cons, List.sum_cons, List.countP_cons] at *
      rcases hr with h0 | h1
      · simp [h0, ht]
      · simp only [h1, ht, decide_eq_true_eq, if_pos]
        push_cast
        ring

theorem countP_disguise_mofo (l : List PlayRecord)
    (hm : ∀ r ∈ l, r.is_disguise = 1 → r.has_mofo_data = 1) :
    (mofoPassPlays l).countP (fun r => r.is_disguise = 1) =
      (passPlays l).countP (fun r => r.is_disguise = 1) := by
  unfold mofoPassPlays
  rw [List.countP_filter]
  apply List.countP_congr
  intro r hr
  simp only [Bool.and_eq_true, decide_eq_true_eq]
  exact ⟨fun hh => hh.1,
         fun hh => ⟨hh, hm r (List.mem_of_mem_filter hr) hh⟩⟩

/-- The disguise-rate computation shared by the overall and per-category
defensive aggregations, rewritten as a single rational formula: under the
deriver's invariants (`is_disguise` is 0/1 and implies `has_mofo_data`), the
if-cascade equals `disguise count / MOFO-valid pass count × 100` (with the
`x / 0 = 0` convention of `ℚ` absorbing the explicit zero fallbacks). -/
theorem disguise_core (l : List PlayRecord)
    (h01 : ∀ r ∈ l, r.is_disguise = 0 ∨ r.is_disguise = 1)
    (hm : ∀ r ∈ l, r.is_disguise = 1 → r.has_mofo_data = 1) :
    (if (passPlays l).length = 0 then (0 : ℚ)
     else if (mofoPassPlays l).length > 0 then
       ratioPct ((sumCol (mofoPassPlays l) (·.is_disguise) : Int) : ℚ)
         ((mofoPassPlays l).length : ℚ)
     else 0)
    = ((passPlays l).countP (fun r => r.is_disguise = 1) : ℚ)
        / ((mofoPassPlays l).length : ℚ) * 100 := by
  by_cases hp : (passPlays l).length = 0
  · rw [if_pos hp]
    have hpe : passPlays l = [] := List.length_eq_zero.mp hp
    rw [hpe]
    simp
  · rw [if_neg hp]
    by_cases hm0 : (mofoPassPlays l).length > 0
    · rw [if_pos hm0]
      have h01m : ∀ r ∈ mofoPassPlays l, r.is_disguise = 0 ∨ r.is_disguise = 1 :=
        fun r hr =>
          h01 r (List.mem_of_mem_filter (List.mem_of_mem_filter hr))
      rw [sumCol_eq_countP _ _ h01m, countP_disguise_mofo l hm, ratioPct,
          Int.cast_natCast]
    · rw [if_neg hm0]
      have hlen0 : (mofoPassPlays l).length = 0 := by omega
      have hcnt : (passPlays l).countP (fun r => r.is_disguise = 1) = 0 := by
        rw [← countP_disguise_mofo l hm, List.length_eq_zero.mp hlen0]
        rfl
      rw [hcnt]
      simp

theorem def_overall_disguise_eq (df : List PlayRecord) :
    (calculate_defensive_overall_tendencies df).disguise_pct =
      (if (passPlays df).length = 0 then (0 : ℚ)
       else if (mofoPassPlays df).length > 0 then
         ratioPct ((sumCol (mofoPassPlays df) (·.is_disguise) : Int) : ℚ)
           ((mofoPassPlays df).length : ℚ)
       else 0) := by
  unfold calculate_defensive_overall_tendencies mofoPassPlays
  by_cases hp : (passPlays df).length = 0 <;> simp [hp]

theorem def_category_row_disguise_eq (df : List PlayRecord)
    (cat : PlayRecord → Option String) (k : String) :
    (defCategoryRow df cat k).Disguise_Pct =
      (if (passPlays (df.filter (fun r => cat r = some k))).length = 0 then (0 : ℚ)
       else if (mofoPassPlays (df.filter (fun r => cat r = some k))).length > 0 then
         ratioPct
           ((sumCol (mofoPassPlays (df.filter (fun r => cat r = some k)))
              (·.is_disguise) : Int) : ℚ)
           ((mofoPassPlays (df.filter (fun r => cat r = some k))).length : ℚ)
       else 0) := by
  unfold defCategoryRow mofoPassPlays
  by_cases hp : (passPlays (df.filter (fun r => cat r = some k))).length = 0 <;>
    simp [hp]

/-- C2: in both the overall and the per-category defensive aggregation, for
record sets satisfying the deriver's invariants (`is_disguise` is a 0/1
indicator that implies `has_mofo_data`), `Disguise_Pct` equals the count of
disguise plays divided by the count of pass plays with valid MOFO data,
times 100 (and is exactly 0 when that denominator is empty — the `ℚ`
convention `x / 0 = 0` makes the single formula cover the explicit zero
fallback).  The final conjunct separates the denominators on a concrete
set: a table with one MOFO-valid disguise pass and one MOFO-less pass has
`disguise_pct = 100`, not the 50 that dividing by all pass plays or all
plays would give. -/
theorem disguise_pct_spec :
    (∀ df : List PlayRecord,
      (∀ r ∈ df, r.is_disguise = 0 ∨ r.is_disguise = 1) →
      (∀ r ∈ df, r.is_disguise = 1 → r.has_mofo_data = 1) →
      ((calculate_defensive_overall_tendencies df).disguise_pct =
          ((passPlays df).countP (fun r => r.is_disguise = 1) : ℚ)
            / ((mofoPassPlays df).length : ℚ) * 100
       ∧ ((mofoPassPlays df).length = 0 →
           (calculate_defensive_overall_tendencies df).disguise_pct = 0)
       ∧ ∀ (cat : PlayRecord → Option String) (row : DefCategoryRow),
           row ∈ calculate_defensive_category_tendencies df cat →
           row.Disguise_Pct =
             ((passPlays (df.filter (fun r => cat r = some row.Category))).countP
                 (fun r => r.is_disguise = 1) : ℚ)
               / ((mofoPassPlays
                     (df.filter (fun r => cat r = some row.Category))).length : ℚ)
               * 100))
    ∧ (calculate_defensive_overall_tendencies disguiseSepDf).disguise_pct
        ≠ ((passPlays disguiseSepDf).countP (fun r => r.is_disguise = 1) : ℚ)
            / ((passPlays disguiseSepDf).length : ℚ) * 100
    ∧ (calculate_defensive_overall_tendencies disguiseSepDf).disguise_pct
        ≠ ((passPlays disguiseSepDf).countP (fun r => r.is_disguise = 1) : ℚ)
            / (disguiseSepDf.length : ℚ) * 100 := by
  have hmain : ∀ df : List PlayRecord,
      (∀ r ∈ df, r.is_disguise = 0 ∨ r.is_disguise = 1) →
      (∀ r ∈ df, r.is_disguise = 1 → r.has_mofo_data = 1) →
      ((calculate_defensive_overall_tendencies df).disguise_pct =
          ((passPlays df).countP (fun r => r.is_disguise = 1) : ℚ)
            / ((mofoPassPlays df).length : ℚ) * 100
       ∧ ((mofoPassPlays df).length = 0 →
           (calculate_defensive_overall_tendencies df).disguise_pct = 0)
       ∧ ∀ (cat : PlayRecord → Option String) (row : DefCategoryRow),
           row ∈ calculate_defensive_category_tendencies df cat →
           row.Disguise_Pct =
             ((passPlays (df.filter (fun r => cat r = some row.Category))).countP
                 (fun r => r.is_disguise = 1) : ℚ)
               / ((mofoPassPlays
                     (df.filter (fun r => cat r = some row.Category))).length : ℚ)
               * 100) := by
    intro df h01 hm
    have hoverall :
        (calculate_defensive_overall_tendencies df).disguise_pct =
          ((passPlays df).countP (fun r => r.is_disguise = 1) : ℚ)
            / ((mofoPassPlays df).length : ℚ) * 100 := by
      rw [def_overall_disguise_eq, disguise_core df h01 hm]
    refine ⟨hoverall, fun h0 => ?_, fun cat row hrow => ?_⟩
    · rw [hoverall]
      have hcnt : (passPlays df).countP (fun r => r.is_disguise = 1) = 0 := by
        rw [← countP_disguise_mofo df hm, List.length_eq_zero.mp h0]
        rfl
      rw [hcnt]
      simp
    · unfold calculate_defensive_category_tendencies at hrow
      by_cases h0 : df.length = 0
      · rw [if_pos h0] at hrow
        exact absurd hrow (List.not_mem_nil row)
      · rw [if_neg h0] at hrow
        have hrow2 := (List.perm_insertionSort
          (fun a b : DefCategoryRow => a.Usage_Pct ≥ b.Usage_Pct)
          ((groupKeys df cat).map (defCategoryRow df cat))).mem_iff.mp hrow
        obtain ⟨k, -, hk⟩ := List.mem_map.mp hrow2
        have hcatk : row.Category = k := by rw [← hk]; rfl
        subst hk
        rw [hcatk, def_category_row_disguise_eq]
        exact disguise_core (df.filter (fun r => cat r = some k))
          (fun r hr => h01 r (List.mem_of_mem_filter hr))
          (fun r hr => hm r (List.mem_of_mem_filter hr))
  have hsep := (hmain disguiseSepDf (by decide) (by decide)).1
  have hc1 : (passPlays disguiseSepDf).countP (fun r => r.is_disguise = 1) = 1 := by
    decide
  have hc2 : (mofoPassPlays disguiseSepDf).length = 1 := by decide
  have hc3 : (passPlays disguiseSepDf).length = 2 := by decide
  have hc4 : disguiseSepDf.length = 2 := by decide
  refine ⟨hmain, ?_, ?_⟩
  · rw [hsep, hc1, hc2, hc3]
    norm_num
  · rw [hsep, hc1, hc2, hc4]
    norm_num

/-- C2 (witness): concrete instantiation — one MOFO-valid disguise pass and
one MOFO-less pass, satisfying the deriver invariants, where the overall
disguise percentage equals the MOFO-valid-denominated formula. -/
theorem disguise_pct_spec_witness :
    (calculate_defensive_overall_tendencies disguiseSepDf).disguise_pct =
      ((passPlays disguiseSepDf).countP (fun r => r.is_disguise = 1) : ℚ)
        / ((mofoPassPlays disguiseSepDf).length : ℚ) * 100 :=
  (disguise_pct_spec.1 disguiseSepDf (by decide) (by decide)).1

end NFLDash
